import Mathlib

/-!
Verification of the WatchWaste report pipeline (`src/main.py`).

The embedding models the `/report` handler (`report_waste`, lines 58-128),
the classifier block it contains (lines 69-104), and the `/get-hotspots`
handler (`get_hotspots`, lines 130-147).

Modelling choices:
* Python objects decoded from JSON are the inductive `Json`; numbers are
  rationals (exact stand-ins for Python floats).
* `json.loads` and the external Gemini call are outside the repository:
  they enter the embedding as parameters of `Env` (`loads`, `modelOutcome`).
  `ModelOutcome.raises` covers any exception raised inside the `try` block
  before the parse (PIL `Image.open` failure, network error, timeout);
  its string is Python's `str(e)`.
* `str.replace(pat, '')` and `str.strip()` are reimplemented on `List Char`
  (`removeAll`, `pyStrip`); `pyStrip` uses the ASCII whitespace set.
* The sqlite table is a `List Report` (append = `INSERT`, list order =
  insertion order); the uploads directory is an association list with
  last-writer-wins overwrite, as `open(..., "wb")` behaves.
* `datetime.datetime.now()` is the `now` field of `Env`.
-/

namespace WatchWaste

/-- A decoded JSON value, i.e. any Python object `json.loads` can return. -/
inductive Json where
  | null
  | bool (b : Bool)
  | num (q : ℚ)
  | str (s : String)
  | arr (elems : List Json)
  | obj (fields : List (String × Json))

/-- Python truth-testing (`if x:`) on a decoded JSON value. -/
def pyTruthy : Json → Bool
  | .null => false
  | .bool b => b
  | .num q => q != 0
  | .str s => s != ""
  | .arr elems => !elems.isEmpty
  | .obj fields => !fields.isEmpty

/-- Python `dict.get(k, d)`: the value at `k`, or the default `d` when absent. -/
def jget (fields : List (String × Json)) (k : String) (d : Json) : Json :=
  match fields.lookup k with
  | some v => v
  | none => d

/-- The backquote character, first character of the fence markers. -/
def tick : Char := Char.ofNat 96

/-- Whether the first list is a prefix of the second (Python substring
match at the head position, used by `str.replace` scanning). -/
def isPre : List Char → List Char → Bool
  | [], _ => true
  | _ :: _, [] => false
  | a :: p, b :: l => a == b && isPre p l

/-- Python `s.replace(pat, '')` with `pat = c :: p`: scan left to right,
deleting each leftmost non-overlapping occurrence of the pattern
(main.py line 92 uses it twice, with patterns made of backquotes). -/
def removeAll (c : Char) (p : List Char) (l : List Char) : List Char :=
  match l with
  | [] => []
  | x :: xs =>
    if isPre (c :: p) (x :: xs) then removeAll c p (xs.drop p.length)
    else x :: removeAll c p xs
termination_by l.length
decreasing_by
  all_goals simp [List.length_drop]
  omega

/-- ASCII whitespace, the characters `str.strip()` removes. -/
def pySpace (c : Char) : Bool :=
  c == ' ' || c == '\t' || c == '\n' || c == '\r' || c == '\x0b' || c == '\x0c'

/-- Python `s.strip()`: drop whitespace from both ends. -/
def pyStrip (l : List Char) : List Char :=
  ((l.dropWhile pySpace).reverse.dropWhile pySpace).reverse

/-- main.py line 92: `response.text.replace('```json', '').replace('```', '').strip()`. -/
def cleanChars (l : List Char) : List Char :=
  pyStrip (removeAll tick ("``".data) (removeAll tick ("``json".data) l))

/-- String-level wrapper for `cleanChars`. -/
def cleanText (s : String) : String := String.mk (cleanChars s.data)

/-- The values held by the variables `is_trash`, `description`, `confidence`
after the classifier block (main.py lines 69-104) finishes. -/
structure Verdict where
  is_trash : Json
  description : Json
  confidence : Json

/-- Outcome of the external model call `model.generate_content_async`:
either an exception (also covering `Image.open` failure) or the raw
response text. -/
inductive ModelOutcome where
  | raises (msg : String)
  | returns (text : String)

/-- External world of one `/report` request: the demo flag (main.py line
20), the model call's outcome, the behaviour of `json.loads` (`.error` =
`json.JSONDecodeError`, carrying `str(e)`), and the server clock. -/
structure Env where
  demoMode : Bool
  modelOutcome : ModelOutcome
  loads : String → Except String Json
  now : Nat

/-- The verdict produced on the error path, main.py lines 99-104:
`is_trash = False`, `description = f"AI Error: {e}"`, `confidence = 0.0`. -/
def errVerdict (msg : String) : Verdict :=
  ⟨.bool false, .str ("AI Error: " ++ msg), .num 0⟩

/-- The Python `str(e)` text of the `AttributeError` raised by
`analysis.get` when `json.loads` returned a non-dict value (the quote
marks CPython puts around the type name are omitted here). -/
def attrErrMsg (j : Json) : String :=
  match j with
  | .null => "NoneType object has no attribute get"
  | .bool _ => "bool object has no attribute get"
  | .num _ => "float object has no attribute get"
  | .str _ => "str object has no attribute get"
  | .arr _ => "list object has no attribute get"
  | .obj _ => "unreachable"

/-- main.py lines 92-104: clean the model's text, `json.loads` it, read the
three fields with their defaults; any parse failure (or `.get` on a
non-dict) falls into the `except` handler. -/
def classifyText (loads : String → Except String Json) (text : String) : Verdict :=
  match loads (cleanText text) with
  | .error e => errVerdict e
  | .ok j =>
    match j with
    | .obj fields =>
      let t := jget fields "is_trash" (.bool false)
      let d := jget fields "description" (.str "No description")
      let c := jget fields "confidence" (if pyTruthy t then .num 0.85 else .num 0.0)
      ⟨t, d, c⟩
    | _ => errVerdict (attrErrMsg j)

/-- main.py lines 69-104: the whole classifier block. Demo mode (lines
73-78) short-circuits with the canned positive verdict; otherwise the
`try` body runs: an exception before the parse yields the error verdict,
a returned text goes through `classifyText`. -/
def classify (env : Env) : Verdict :=
  if env.demoMode then
    ⟨.bool true, .str "DEMO MODE: Verified pile of garbage containing plastic and debris.",
      .num 0.98⟩
  else
    match env.modelOutcome with
    | .raises msg => errVerdict msg
    | .returns text => classifyText env.loads text

/-- One row of the sqlite `reports` table (main.py lines 49-52). -/
structure Report where
  lat : ℚ
  lon : ℚ
  image_path : String
  status : String
  timestamp : Nat
  ai_analysis : Json
  confidence : Json

/-- The uploaded file: original filename and raw bytes. -/
structure UploadFile where
  filename : String
  content : List Nat

/-- The uploads directory, filename to bytes. -/
def ImageStore := List (String × List Nat)

/-- main.py lines 61-64: `open(f"backend/uploads/{filename}", "wb")` —
overwrite whatever was stored under the same filename. -/
def imageSave (store : ImageStore) (name : String) (bytes : List Nat) : ImageStore :=
  (name, bytes) :: (store : List (String × List Nat)).filter (fun kv => kv.1 != name)

/-- The JSON body returned by `/report` (main.py lines 116-128). -/
structure Outcome where
  status : String
  message : String
  details : Json
  confidence : Json

/-- main.py lines 58-128, the `/report` handler: save the image, run the
classifier block, then branch on `if is_trash:` — truthy inserts a row
with status "Verified Hotspot" and returns the success body, falsy leaves
the table unchanged and returns the rejected body. -/
def report_waste (env : Env) (lat lon : ℚ) (file : UploadFile)
    (db : List Report) (imgs : ImageStore) : Outcome × List Report × ImageStore :=
  let imgs2 := imageSave imgs file.filename file.content
  let v := classify env
  if pyTruthy v.is_trash then
    let row : Report :=
      ⟨lat, lon, file.filename, "Verified Hotspot", env.now, v.description, v.confidence⟩
    (⟨"success", "Waste Verified!", v.description, v.confidence⟩, db ++ [row], imgs2)
  else
    (⟨"rejected", "Not identified as waste.", v.description, v.confidence⟩, db, imgs2)

/-- One element of the JSON array returned by `/get-hotspots`
(main.py lines 139-146). -/
structure HotspotView where
  lat : ℚ
  lon : ℚ
  status : String
  image : String
  time : Nat
  analysis : Json
  confidence : Json

/-- main.py line 142: the fixed public base address prepended to the
stored filename. -/
def staticBase : String := "http://localhost:8000/static/"

/-- The projection of one row (main.py lines 139-146). -/
def hotspotView (r : Report) : HotspotView :=
  ⟨r.lat, r.lon, r.status, staticBase ++ r.image_path, r.timestamp, r.ai_analysis, r.confidence⟩

/-- main.py lines 137-146: the `for r in rows` loop appending one dict per
row to `data`. -/
def hotspotLoop (acc : List HotspotView) : List Report → List HotspotView
  | [] => acc
  | r :: rs => hotspotLoop (acc ++ [hotspotView r]) rs

/-- main.py lines 130-147, the `/get-hotspots` handler: SELECT every row,
project each, close the connection without writing — the second component
is the table as the handler leaves it. -/
def get_hotspots (db : List Report) : List HotspotView × List Report :=
  (hotspotLoop [] db, db)

/-- A model response wrapping a payload in code-fence markers. -/
def wrapFence (s : String) : String := "```json\n" ++ s ++ "\n```"

/-- Char-list form of `wrapFence`. -/
def wrapChars (s : List Char) : List Char := "```json\n".data ++ s ++ "\n```".data

/-- Whether a decoded JSON value is a number lying in [0, 1]. -/
def confInUnit : Json → Bool
  | .num q => decide (0 ≤ q ∧ q ≤ 1)
  | _ => false

/- Concrete request data used in counterexamples and witnesses. Each
constant `loads` function stands for `json.loads` acting on the concrete
model reply of that scenario. -/

/-- A sample upload. -/
def sampleFile : UploadFile := ⟨"img.jpg", [1, 2, 3]⟩

/-- Model reply parsed to an object whose `is_trash` is the number 1. -/
def envNumTrash : Env :=
  ⟨false, .returns "reply", fun _ => .ok (.obj [("is_trash", .num 1)]), 0⟩

/-- Model reply parsed to `is_trash` true with confidence 2. -/
def envBigConf : Env :=
  ⟨false, .returns "reply",
    fun _ => .ok (.obj [("is_trash", .bool true), ("confidence", .num 2)]), 0⟩

/-- Demo mode on; the model and the parser are both broken, and must not
be consulted. -/
def envDemo : Env :=
  ⟨true, .raises "network down", fun _ => .error "Expecting value: line 1 column 1 (char 0)", 7⟩

/-- A second demo-mode environment with a different model behaviour. -/
def envDemo2 : Env :=
  ⟨true, .returns "reply", fun _ => .ok (.obj [("is_trash", .bool false)]), 7⟩

/-- Demo mode off and the external call raises. -/
def envDown : Env :=
  ⟨false, .raises "network down", fun _ => .error "Expecting value: line 1 column 1 (char 0)", 7⟩

/-- Model reply parsed to an object whose `is_trash` is the non-empty
string "false". -/
def envStrTrash : Env :=
  ⟨false, .returns "reply", fun _ => .ok (.obj [("is_trash", .str "false")]), 0⟩

/-- Model reply parsed to `is_trash` true with confidence one half. -/
def envHalfConf : Env :=
  ⟨false, .returns "reply",
    fun _ => .ok (.obj [("is_trash", .bool true), ("confidence", .num (1/2))]), 0⟩

/-- Model reply parsed to the empty object: every field absent. -/
def envEmptyObj : Env := ⟨false, .returns "reply", fun _ => .ok (.obj []), 0⟩

/-- Model reply parsed to `is_trash` true with no confidence field. -/
def envTrueNoConf : Env :=
  ⟨false, .returns "reply", fun _ => .ok (.obj [("is_trash", .bool true)]), 0⟩

/-- Model reply parsed to a full negative verdict. -/
def envFalseTrash : Env :=
  ⟨false, .returns "reply",
    fun _ => .ok (.obj [("is_trash", .bool false), ("description", .str "clean street"),
      ("confidence", .num (3/10))]), 0⟩

/- ------------------------------------------------------------------ -/
/- Lemmas about the `str.replace`/`str.strip` embedding.              -/
/- ------------------------------------------------------------------ -/

theorem isPre_length_false {p l : List Char} (h : l.length < p.length) : isPre p l = false := by
  induction p generalizing l with
  | nil => simp at h
  | cons a p ih =>
    cases l with
    | nil => rfl
    | cons b l =>
      have hl : l.length < p.length := by simp at h; omega
      simp [isPre, ih hl]

theorem isPre_self_append (p r : List Char) : isPre p (p ++ r) = true := by
  induction p with
  | nil => rfl
  | cons a p ih => simp [isPre, ih]

theorem removeAll_nil (c : Char) (p : List Char) : removeAll c p [] = [] := by
  simp [removeAll]

theorem removeAll_cons (c : Char) (p : List Char) (x : Char) (xs : List Char) :
    removeAll c p (x :: xs) =
      if isPre (c :: p) (x :: xs) then removeAll c p (xs.drop p.length)
      else x :: removeAll c p xs := by
  rw [removeAll]

theorem removeAll_short {c : Char} {p l : List Char} (h : l.length ≤ p.length) :
    removeAll c p l = l := by
  induction l with
  | nil => simp [removeAll]
  | cons x xs ih =>
    have hp : isPre (c :: p) (x :: xs) = false :=
      isPre_length_false (by simp; simp at h; omega)
    have hx : xs.length ≤ p.length := by simp at h; omega
    rw [removeAll_cons, hp]
    simp [ih hx]

theorem removeAll_append_not_mem {c : Char} {p l : List Char} (h : c ∉ l)
    (t : List Char) : removeAll c p (l ++ t) = l ++ removeAll c p t := by
  induction l with
  | nil => simp
  | cons x xs ih =>
    have hxc : x ≠ c := by rintro rfl; exact h (List.mem_cons_self _ _)
    have hce : (c == x) = false := beq_eq_false_iff_ne.mpr (Ne.symm hxc)
    have hx : isPre (c :: p) (x :: (xs ++ t)) = false := by simp [isPre, hce]
    rw [List.cons_append, removeAll_cons, hx]
    simp [ih (fun hm => h (List.mem_cons_of_mem _ hm))]

theorem removeAll_not_mem {c : Char} {p l : List Char} (h : c ∉ l) :
    removeAll c p l = l := by
  have := @removeAll_append_not_mem c p l h []
  simpa [removeAll_nil] using this

theorem removeAll_skip (c : Char) (p r : List Char) :
    removeAll c p ((c :: p) ++ r) = removeAll c p r := by
  have ht : isPre (c :: p) (c :: (p ++ r)) = true := by
    have := isPre_self_append (c :: p) r
    simpa using this
  rw [List.cons_append, removeAll_cons, ht]
  simp [List.drop_left]

theorem removeAll_skip_cons (c : Char) (p r : List Char) :
    removeAll c p (c :: (p ++ r)) = removeAll c p r := by
  have := removeAll_skip c p r
  rwa [List.cons_append] at this

theorem isPre_append_mono {q a : List Char} (h : isPre q a = true) (t : List Char) :
    isPre q (a ++ t) = true := by
  induction q generalizing a with
  | nil => rfl
  | cons y q ih =>
    cases a with
    | nil => simp [isPre] at h
    | cons x a2 =>
      simp [isPre] at h ⊢
      exact ⟨h.1, ih h.2⟩

theorem isPre_of_append_le {q a t : List Char} (h : isPre q (a ++ t) = true)
    (hle : q.length ≤ a.length) : isPre q a = true := by
  induction q generalizing a with
  | nil => rfl
  | cons y q ih =>
    cases a with
    | nil => simp at hle
    | cons x a2 =>
      simp [isPre] at h ⊢
      refine ⟨h.1, ih h.2 ?_⟩
      simp at hle
      omega

theorem isPre_sep_length_le {q a b : List Char} {ch : Char}
    (h : isPre q (a ++ ch :: b) = true) (hch : ch ∉ q) : q.length ≤ a.length := by
  induction q generalizing a with
  | nil => simp
  | cons y q ih =>
    cases a with
    | nil =>
      exfalso
      simp [isPre] at h
      apply hch
      rw [h.1]
      exact List.mem_cons_self ch q
    | cons x a2 =>
      simp [isPre] at h
      have hq : q.length ≤ a2.length := ih h.2 (fun hm => hch (List.mem_cons_of_mem y hm))
      simp
      omega

theorem removeAll_cons_sep {c : Char} {p : List Char} {ch : Char} (hch : ch ∉ (c :: p))
    (b : List Char) : removeAll c p (ch :: b) = ch :: removeAll c p b := by
  have hcc : ch ≠ c := fun hh => hch (by rw [hh]; exact List.mem_cons_self c p)
  have hf : (c == ch) = false := beq_eq_false_iff_ne.mpr (Ne.symm hcc)
  rw [removeAll_cons]
  simp [isPre, hf]

theorem removeAll_append_sep_aux {c : Char} {p : List Char} {ch : Char}
    (hch : ch ∉ (c :: p)) (b : List Char) :
    ∀ (n : Nat) (a : List Char), a.length ≤ n →
      removeAll c p (a ++ ch :: b) = removeAll c p a ++ ch :: removeAll c p b := by
  intro n
  induction n with
  | zero =>
    intro a ha
    have haz : a = [] := List.length_eq_zero.mp (Nat.le_zero.mp ha)
    subst haz
    rw [List.nil_append, removeAll_nil, List.nil_append, removeAll_cons_sep hch]
  | succ n ih =>
    intro a ha
    cases a with
    | nil => rw [List.nil_append, removeAll_nil, List.nil_append, removeAll_cons_sep hch]
    | cons x a2 =>
      have ha2 : a2.length ≤ n := by simp at ha; omega
      by_cases hm : isPre (c :: p) (x :: (a2 ++ ch :: b)) = true
      · have hx : (x :: a2) ++ ch :: b = x :: (a2 ++ ch :: b) := List.cons_append x a2 _
        have hm2 : isPre (c :: p) ((x :: a2) ++ ch :: b) = true := by rw [hx]; exact hm
        have hlen : (c :: p).length ≤ (x :: a2).length := isPre_sep_length_le hm2 hch
        have hple : p.length ≤ a2.length := by simp at hlen; omega
        have hpre : isPre (c :: p) (x :: a2) = true := isPre_of_append_le hm2 hlen
        have hdrop : (a2 ++ ch :: b).drop p.length = a2.drop p.length ++ ch :: b := by
          rw [List.drop_append_eq_append_drop, Nat.sub_eq_zero_of_le hple, List.drop_zero]
        have hdl : (a2.drop p.length).length ≤ n := by
          have := List.length_drop p.length a2
          omega
        rw [hx, removeAll_cons, if_pos hm, hdrop, ih _ hdl]
        rw [removeAll_cons, if_pos hpre]
      · have hpre2 : ¬(isPre (c :: p) (x :: a2) = true) := by
          intro h2
          apply hm
          have := isPre_append_mono h2 (ch :: b)
          rwa [List.cons_append] at this
        rw [List.cons_append, removeAll_cons, if_neg hm]
        rw [removeAll_cons, if_neg hpre2]
        simp [ih a2 ha2]

/-- Key factoring fact behind the fence stripping: a pattern that does not
contain the character `ch` can never match across an occurrence of `ch`,
so `str.replace` scanning splits at it. -/
theorem removeAll_append_sep {c : Char} {p : List Char} {ch : Char}
    (hch : ch ∉ (c :: p)) (a b : List Char) :
    removeAll c p (a ++ ch :: b) = removeAll c p a ++ ch :: removeAll c p b :=
  removeAll_append_sep_aux hch b a.length a le_rfl

theorem dropWhile_pySpace_nl (l : List Char) :
    List.dropWhile pySpace ('\n' :: l) = List.dropWhile pySpace l := by
  have h : pySpace '\n' = true := by decide
  rw [List.dropWhile_cons, h]
  simp

theorem pyStrip_cons_nl (l : List Char) : pyStrip ('\n' :: l) = pyStrip l := by
  unfold pyStrip
  rw [dropWhile_pySpace_nl]

theorem pyStrip_append_nl (l : List Char) : pyStrip (l ++ ['\n']) = pyStrip l := by
  unfold pyStrip
  rw [List.dropWhile_append]
  by_cases h : (List.dropWhile pySpace l).isEmpty
  · rw [if_pos h]
    rw [List.isEmpty_iff] at h
    rw [h]
    have hnl : List.dropWhile pySpace ['\n'] = [] := by decide
    rw [hnl]
  · rw [if_neg h]
    simp only [List.reverse_append, List.reverse_cons, List.reverse_nil, List.nil_append,
      List.singleton_append]
    rw [dropWhile_pySpace_nl]

theorem cleanChars_wrap (s : List Char) : cleanChars (wrapChars s) = cleanChars s := by
  have hnpJ : '\n' ∉ (tick :: "``json".data) := by decide
  have hnp2 : '\n' ∉ (tick :: "``".data) := by decide
  have step1 : removeAll tick ("``json".data) (wrapChars s) =
      '\n' :: (removeAll tick ("``json".data) s ++ '\n' :: "```".data) := by
    have e1 : wrapChars s = tick :: ("``json".data ++ ('\n' :: (s ++ '\n' :: "```".data))) := by
      rw [wrapChars, show "```json\n".data = (tick :: "``json".data) ++ ['\n'] from by decide,
        show "\n```".data = '\n' :: "```".data from by decide]
      simp
    rw [e1, removeAll_skip_cons]
    rw [removeAll_cons_sep hnpJ]
    rw [removeAll_append_sep hnpJ s ("```".data)]
    rw [show removeAll tick ("``json".data) ("```".data) = "```".data from
      removeAll_short (by decide)]
  have step2 : removeAll tick ("``".data)
        ('\n' :: (removeAll tick ("``json".data) s ++ '\n' :: "```".data)) =
      '\n' :: (removeAll tick ("``".data) (removeAll tick ("``json".data) s) ++ ['\n']) := by
    rw [removeAll_cons_sep hnp2]
    rw [removeAll_append_sep hnp2 (removeAll tick ("``json".data) s) ("```".data)]
    rw [show "```".data = (tick :: "``".data) ++ [] from by decide]
    rw [removeAll_skip, removeAll_nil]
  simp only [cleanChars]
  rw [step1, step2]
  rw [pyStrip_cons_nl, pyStrip_append_nl]

theorem cleanText_wrap (s : String) : cleanText (wrapFence s) = cleanText s := by
  unfold cleanText
  have : (wrapFence s).data = wrapChars s.data := by
    simp [wrapFence, wrapChars, String.data_append]
  rw [this, cleanChars_wrap]

theorem hotspotLoop_append (acc : List HotspotView) (db : List Report) :
    hotspotLoop acc db = acc ++ db.map hotspotView := by
  induction db generalizing acc with
  | nil => simp [hotspotLoop]
  | cons r rs ih => simp [hotspotLoop, ih]

/- ------------------------------------------------------------------ -/
/- Claim theorems.                                                    -/
/- ------------------------------------------------------------------ -/

/-- C2: whenever the `try` body fails — the external call (or `Image.open`)
raises, the cleaned text is not JSON, or the parsed value is not a dict —
the classifier block catches the failure and produces the verdict
`is_trash = false`, `confidence = 0.0`, with a non-empty diagnostic
description naming the failure. `classify` is a total function, so no
failure propagates as an exception to the pipeline or caller. -/
theorem c2_failure_to_negative_verdict (env : Env) (hd : env.demoMode = false) :
    (∀ msg, env.modelOutcome = .raises msg →
      classify env = ⟨.bool false, .str ("AI Error: " ++ msg), .num 0⟩
        ∧ 0 < ("AI Error: " ++ msg).length)
    ∧ (∀ text e, env.modelOutcome = .returns text →
        env.loads (cleanText text) = .error e →
        classify env = ⟨.bool false, .str ("AI Error: " ++ e), .num 0⟩
          ∧ 0 < ("AI Error: " ++ e).length)
    ∧ (∀ text j, env.modelOutcome = .returns text →
        env.loads (cleanText text) = .ok j → (∀ fields, j ≠ .obj fields) →
        classify env = ⟨.bool false, .str ("AI Error: " ++ attrErrMsg j), .num 0⟩
          ∧ 0 < ("AI Error: " ++ attrErrMsg j).length) := by
  refine ⟨fun msg hm => ⟨?_, ?_⟩, fun text e hm hl => ⟨?_, ?_⟩, fun text j hm hl hobj => ⟨?_, ?_⟩⟩
  · simp [classify, hd, hm, errVerdict]
  · simp [String.length_append]
    exact Or.inl (by decide)
  · simp [classify, hd, hm, classifyText, hl, errVerdict]
  · simp [String.length_append]
    exact Or.inl (by decide)
  · cases j with
    | obj fields => exact absurd rfl (hobj fields)
    | null => simp [classify, hd, hm, classifyText, hl, errVerdict]
    | bool b => simp [classify, hd, hm, classifyText, hl, errVerdict]
    | num q => simp [classify, hd, hm, classifyText, hl, errVerdict]
    | str s => simp [classify, hd, hm, classifyText, hl, errVerdict]
    | arr elems => simp [classify, hd, hm, classifyText, hl, errVerdict]
  · simp [String.length_append]
    exact Or.inl (by decide)

/-- C2 witness: the raising model call at a concrete environment. -/
theorem c2_witness :
    classify envDown = ⟨.bool false, .str ("AI Error: " ++ "network down"), .num 0⟩
    ∧ 0 < ("AI Error: " ++ "network down").length :=
  (c2_failure_to_negative_verdict envDown rfl).1 "network down" rfl

/-- C3: when the verdict resolved `is_trash = false`, no row is written
(the table is returned unchanged) and the outcome is the "rejected" body
carrying the verdict description and confidence. -/
theorem c3_reject_frame (env : Env) (lat lon : ℚ) (file : UploadFile)
    (db : List Report) (imgs : ImageStore)
    (h : (classify env).is_trash = Json.bool false) :
    (report_waste env lat lon file db imgs).2.1 = db
    ∧ (report_waste env lat lon file db imgs).1 =
        ⟨"rejected", "Not identified as waste.", (classify env).description,
          (classify env).confidence⟩ := by
  have ht : pyTruthy (classify env).is_trash = false := by rw [h]; rfl
  unfold report_waste
  simp [ht]

/-- C3 witness: a full negative verdict at a concrete environment. -/
theorem c3_witness :
    (report_waste envFalseTrash 0 0 sampleFile [] []).2.1 = []
    ∧ (report_waste envFalseTrash 0 0 sampleFile [] []).1 =
        ⟨"rejected", "Not identified as waste.", (classify envFalseTrash).description,
          (classify envFalseTrash).confidence⟩ :=
  c3_reject_frame envFalseTrash 0 0 sampleFile [] [] rfl

/-- C5: every payload wrapped in code-fence markers is parsed to the same
verdict as the payload unwrapped. This holds unconditionally: the wrapper
pieces are separated from the payload by newlines, neither replace pattern
of line 92 contains a newline, so the replaces factor at the junctions and
`strip` removes the leftover newlines. -/
theorem c5_fence_invariant (loads : String → Except String Json) (s : String) :
    classifyText loads (wrapFence s) = classifyText loads s := by
  unfold classifyText
  rw [cleanText_wrap]

/-- C5 witness: a concrete JSON object payload, containing a backquote
inside a string field. -/
theorem c5_witness :
    classifyText (fun _ => Except.ok (Json.obj [("is_trash", Json.bool true)]))
        (wrapFence "\x7b\"is_trash\": true, \"description\": \"a `weird` pile\"\x7d") =
      classifyText (fun _ => Except.ok (Json.obj [("is_trash", Json.bool true)]))
        "\x7b\"is_trash\": true, \"description\": \"a `weird` pile\"\x7d" :=
  c5_fence_invariant (fun _ => Except.ok (Json.obj [("is_trash", Json.bool true)]))
    "\x7b\"is_trash\": true, \"description\": \"a `weird` pile\"\x7d"

/-- C8: with demo mode enabled the result does not depend on the model
call or the parser (the external model is never consulted), and the
outcome is acceptance with status "success" and confidence 0.98,
whatever the image content. -/
theorem c8_demo_mode (env env2 : Env) (lat lon : ℚ) (file : UploadFile)
    (db : List Report) (imgs : ImageStore)
    (h : env.demoMode = true) (h2 : env2.demoMode = true) (hn : env.now = env2.now) :
    report_waste env lat lon file db imgs = report_waste env2 lat lon file db imgs
    ∧ (report_waste env lat lon file db imgs).1.status = "success"
    ∧ (report_waste env lat lon file db imgs).1.confidence = Json.num 0.98 := by
  have hv : classify env =
      ⟨.bool true, .str "DEMO MODE: Verified pile of garbage containing plastic and debris.",
        .num 0.98⟩ := by
    simp [classify, h]
  have hv2 : classify env2 =
      ⟨.bool true, .str "DEMO MODE: Verified pile of garbage containing plastic and debris.",
        .num 0.98⟩ := by
    simp [classify, h2]
  unfold report_waste
  rw [hv, hv2, hn]
  exact ⟨rfl, rfl, rfl⟩

/-- C8 witness: two demo environments with different broken externals
give the same accepted result. -/
theorem c8_witness :
    report_waste envDemo 12.9 77.6 sampleFile [] [] =
      report_waste envDemo2 12.9 77.6 sampleFile [] []
    ∧ (report_waste envDemo 12.9 77.6 sampleFile [] []).1.status = "success"
    ∧ (report_waste envDemo 12.9 77.6 sampleFile [] []).1.confidence = Json.num 0.98 :=
  c8_demo_mode envDemo envDemo2 12.9 77.6 sampleFile [] [] rfl rfl rfl

/-- C9: the hotspot query is read-only (it returns the table unchanged),
idempotent (a second call on the resulting table gives the same list),
and projects every stored row, unfiltered, into the client shape whose
image address is the fixed public base concatenated with the stored
filename. -/
theorem c9_hotspots_projection (db : List Report) :
    (get_hotspots db).2 = db
    ∧ (get_hotspots ((get_hotspots db).2)).1 = (get_hotspots db).1
    ∧ (get_hotspots db).1 =
        db.map (fun r => ⟨r.lat, r.lon, r.status,
          "http://localhost:8000/static/" ++ r.image_path, r.timestamp,
          r.ai_analysis, r.confidence⟩) := by
  refine ⟨rfl, rfl, ?_⟩
  show hotspotLoop [] db = _
  rw [hotspotLoop_append]
  simp [hotspotView, staticBase]

/-- C1 counterexample: the claim says a row is inserted if and only if the
verdict resolved `is_trash = true`; here the model reply resolves
`is_trash` to the number 1 — not the boolean true — yet a row is
inserted, because line 107 tests truthiness. -/
theorem c1_counterexample :
    (report_waste envNumTrash 0 0 sampleFile [] []).2.1.length = 1
    ∧ (classify envNumTrash).is_trash = Json.num 1
    ∧ Json.num 1 ≠ Json.bool true :=
  ⟨rfl, rfl, fun h => Json.noConfusion h⟩

/-- C1 (amended): a row is inserted if and only if the verdict resolved a
`is_trash` value that is truthy under Python truth-testing (for boolean
verdicts, exactly `is_trash = true`); every inserted row has status
"Verified Hotspot" and carries the verdict description and confidence,
and the success body returns the same two values. -/
theorem c1_insert_iff_truthy (env : Env) (lat lon : ℚ) (file : UploadFile)
    (db : List Report) (imgs : ImageStore) :
    (report_waste env lat lon file db imgs).2.1 =
      (if pyTruthy (classify env).is_trash then
        db ++ [⟨lat, lon, file.filename, "Verified Hotspot", env.now,
          (classify env).description, (classify env).confidence⟩]
      else db)
    ∧ (pyTruthy (classify env).is_trash = true →
        (report_waste env lat lon file db imgs).1 =
          ⟨"success", "Waste Verified!", (classify env).description,
            (classify env).confidence⟩) := by
  unfold report_waste
  by_cases h : pyTruthy (classify env).is_trash
  · simp [h]
  · simp [h]

/-- C1 witness: a truthy verdict inserts exactly the claimed row. -/
theorem c1_witness :
    (report_waste envNumTrash 0 0 sampleFile [] []).2.1 =
      [⟨0, 0, "img.jpg", "Verified Hotspot", 0, Json.str "No description", Json.num 0.85⟩]
    ∧ (report_waste envNumTrash 0 0 sampleFile [] []).1 =
        ⟨"success", "Waste Verified!", Json.str "No description", Json.num 0.85⟩ := by
  have h := c1_insert_iff_truthy envNumTrash 0 0 sampleFile [] []
  exact ⟨by rw [h.1]; rfl, by rw [h.2 rfl]; rfl⟩

/-- Helper: the four constant confidence values the code can produce all
lie in [0, 1]. -/
theorem confInUnit_consts :
    confInUnit (Json.num 0) = true ∧ confInUnit (Json.num 0.0) = true
    ∧ confInUnit (Json.num 0.85) = true ∧ confInUnit (Json.num 0.98) = true := by
  refine ⟨?_, ?_, ?_, ?_⟩ <;> simp [confInUnit] <;> norm_num

/-- C4: for a successfully parsed dict payload, an absent `is_trash`
defaults to false, an absent `description` defaults to the placeholder
"No description", and an absent `confidence` defaults to 0.85 when
`is_trash` resolved true and to 0.0 when it resolved false. -/
theorem c4_field_defaults (env : Env) (text : String) (fields : List (String × Json))
    (hd : env.demoMode = false) (hm : env.modelOutcome = .returns text)
    (hl : env.loads (cleanText text) = .ok (.obj fields)) :
    (fields.lookup "is_trash" = none → (classify env).is_trash = Json.bool false)
    ∧ (fields.lookup "description" = none →
        (classify env).description = Json.str "No description")
    ∧ (fields.lookup "confidence" = none →
        ((classify env).is_trash = Json.bool true →
          (classify env).confidence = Json.num 0.85)
        ∧ ((classify env).is_trash = Json.bool false →
          (classify env).confidence = Json.num 0.0)) := by
  have hc : classify env = classifyText env.loads text := by
    simp [classify, hd, hm]
  rw [hc]
  unfold classifyText
  rw [hl]
  refine ⟨fun hk => ?_, fun hk => ?_, fun hk => ⟨fun ht => ?_, fun ht => ?_⟩⟩
  · simp [jget, hk]
  · simp [jget, hk]
  · simp only [jget, hk] at ht ⊢
    simp [ht, pyTruthy]
  · simp only [jget, hk] at ht ⊢
    simp [ht, pyTruthy]

/-- C4 witness: the empty payload takes all three defaults, and the
payload carrying only `is_trash = true` defaults confidence to 0.85. -/
theorem c4_witness :
    (classify envEmptyObj).is_trash = Json.bool false
    ∧ (classify envEmptyObj).description = Json.str "No description"
    ∧ (classify envEmptyObj).confidence = Json.num 0.0
    ∧ (classify envTrueNoConf).confidence = Json.num 0.85 := by
  have h := c4_field_defaults envEmptyObj "reply" [] rfl rfl rfl
  have h2 := c4_field_defaults envTrueNoConf "reply" [("is_trash", Json.bool true)] rfl rfl rfl
  exact ⟨h.1 rfl, h.2.1 rfl, (h.2.2 rfl).2 (h.1 rfl), (h2.2.2 rfl).1 rfl⟩

/-- C6: the handler performs no input validation. With latitude 200 —
outside [-90, 90] — the submission still reaches the classifier block:
under demo mode it is accepted and a row with latitude 200 is stored,
and with a failing model it surfaces as an ordinary classification
rejection; it is never rejected beforehand as a caller error. -/
theorem c6_invalid_input_reaches_gateway :
    (report_waste envDemo 200 0 sampleFile [] []).1.status = "success"
    ∧ (report_waste envDemo 200 0 sampleFile [] []).2.1.length = 1
    ∧ (report_waste envDemo 200 0 sampleFile [] []).2.1.map Report.lat = [200]
    ∧ (report_waste envDown 200 0 sampleFile [] []).1.status = "rejected" :=
  ⟨rfl, rfl, rfl, rfl⟩

/-- C7 counterexample: the code stores a model-reported confidence
verbatim; a reply with confidence 2 yields a verdict, a returned outcome
and a stored row whose confidence is 2, outside [0, 1]. -/
theorem c7_counterexample :
    (classify envBigConf).confidence = Json.num 2
    ∧ confInUnit (Json.num 2) = false
    ∧ (report_waste envBigConf 0 0 sampleFile [] []).1.confidence = Json.num 2
    ∧ (report_waste envBigConf 0 0 sampleFile [] []).2.1.map Report.confidence =
        [Json.num 2] :=
  ⟨rfl, by simp [confInUnit], rfl, rfl⟩

/-- C7 (amended): the verdict confidence is a number in [0, 1] provided
the parsed payload's `confidence` field, when present, is itself a number
in [0, 1]; every other source of the value (demo mode 0.98, failure 0.0,
defaults 0.85 and 0.0) lies in [0, 1], and a model-reported value is
passed through unvalidated. -/
theorem c7_confidence_in_unit (env : Env)
    (hm : ∀ text fields v, env.modelOutcome = .returns text →
      env.loads (cleanText text) = .ok (.obj fields) →
      fields.lookup "confidence" = some v → confInUnit v = true) :
    confInUnit (classify env).confidence = true := by
  have hc := confInUnit_consts
  unfold classify
  by_cases hd : env.demoMode
  · simp [hd, hc.2.2.2]
  · simp only [hd, Bool.false_eq_true, if_false]
    cases hmo : env.modelOutcome with
    | raises msg => exact hc.1
    | returns text =>
      show confInUnit (classifyText env.loads text).confidence = true
      unfold classifyText
      cases hl : env.loads (cleanText text) with
      | error e => exact hc.1
      | ok j =>
        cases j with
        | obj fields =>
          show confInUnit (jget fields "confidence"
            (if pyTruthy (jget fields "is_trash" (Json.bool false)) then Json.num 0.85
             else Json.num 0.0)) = true
          rw [jget]
          cases hk : fields.lookup "confidence" with
          | some v => exact hm text fields v hmo hl hk
          | none =>
            cases hpt : pyTruthy (jget fields "is_trash" (Json.bool false)) with
            | true => exact hc.2.2.1
            | false => exact hc.2.1
        | null => exact hc.1
        | bool b => exact hc.1
        | num q => exact hc.1
        | str s => exact hc.1
        | arr elems => exact hc.1

/-- C7 witness: an in-range model-reported confidence stays in range. -/
theorem c7_witness : confInUnit (classify envHalfConf).confidence = true := by
  refine c7_confidence_in_unit envHalfConf ?_
  intro text fields v hmo hl hk
  have hf : Json.obj [("is_trash", Json.bool true), ("confidence", Json.num (1/2))] =
      Json.obj fields := by
    injection hl
  injection hf with hf2
  subst hf2
  have hv : some (Json.num (1/2)) = some v := by
    rw [← hk]
    rfl
  injection hv with hv2
  subst hv2
  simp [confInUnit]
  norm_num

/-- C10: line 107 tests the parsed `is_trash` for Python truthiness, not
for boolean equality with true: any truthy parsed value — boolean or not —
is accepted, the success body is returned and a row is inserted. -/
theorem c10_truthy_accepts (env : Env) (lat lon : ℚ) (file : UploadFile)
    (db : List Report) (imgs : ImageStore) (text : String)
    (fields : List (String × Json)) (v : Json)
    (hd : env.demoMode = false) (hm : env.modelOutcome = .returns text)
    (hl : env.loads (cleanText text) = .ok (.obj fields))
    (hk : fields.lookup "is_trash" = some v) (ht : pyTruthy v = true) :
    (report_waste env lat lon file db imgs).1.status = "success"
    ∧ (report_waste env lat lon file db imgs).2.1 =
        db ++ [⟨lat, lon, file.filename, "Verified Hotspot", env.now,
          (classify env).description, (classify env).confidence⟩] := by
  have h1 : (classify env).is_trash = v := by
    simp [classify, hd, hm, classifyText, hl, jget, hk]
  unfold report_waste
  simp [h1, ht]

/-- C10 witness: the non-empty string "false" is truthy, so the
submission is accepted and stored. -/
theorem c10_witness :
    (report_waste envStrTrash 0 0 sampleFile [] []).1.status = "success"
    ∧ (report_waste envStrTrash 0 0 sampleFile [] []).2.1 =
        [] ++ [⟨0, 0, "img.jpg", "Verified Hotspot", 0,
          (classify envStrTrash).description, (classify envStrTrash).confidence⟩] :=
  c10_truthy_accepts envStrTrash 0 0 sampleFile [] [] "reply"
    [("is_trash", Json.str "false")] (Json.str "false") rfl rfl rfl rfl rfl

end WatchWaste
